import Mathlib

/-!
Verification development for the six-cities repository: a shallow embedding of
the offer controller (both revisions found in `offer.controller.ts`), the
`UserEntity` class, and the client thunks of the frontend action file, together
with theorems settling the frozen claims about them.

Conventions of the embedding:
- stateful service calls are explicit state passing over a `DB` record, and
  every handler additionally returns the list of service calls it made
  (`SvcCall`), so that claims about which service operation is invoked, and in
  which order, are statements about that trace;
- fallible handlers return a `HandlerResult` that is either an `ok` response
  (status, body) or a `thrown` typed HTTP error (status, message, component),
  mirroring `this.ok / this.created / this.noContent / throw new HttpError`;
- the service layer, the middlewares, the response mappers and the hashing
  primitive are not part of the given sources (only their callers are); those
  definitions are marked `Modelled from the spec:` and follow the words of the
  specification.
-/

namespace SixCities

/-! ## Hashing primitive and the User entity (part_000) -/

/-- Modelled from the spec: `createSHA256` of `utils/common.js` is not under
the given sources; the spec treats password hashing as an opaque salted
one-way function.  It is modelled as an executable digest of the salt and the
line, so `createSHA256 line salt` is a function of both arguments. -/
def createSHA256 (line : String) (salt : String) : String :=
  toString ((salt ++ "::" ++ line).data.foldl
    (fun a c => (a * 131 + c.toNat) % 1000000007) 7)

/-- Modelled from the spec: the `UserType` enum (user type of a credential
record); its concrete members are not under the given sources. -/
inductive UserType
  | standard
  | pro
  deriving Repr, DecidableEq

def UserType.toStr : UserType → String
  | .standard => "standard"
  | .pro => "pro"

/-- The `User` type consumed by the `UserEntity` constructor: exactly the
fields the constructor reads (`name`, `email`, `avatarPath`, `userType`);
in particular it carries no password. -/
structure User where
  name : String
  email : String
  avatarPath : String
  userType : UserType
  deriving Repr, DecidableEq

/-- The persisted state of a `UserEntity` document (part_000): public fields
`name`, `email`, `avatarPath`, `userType` and the private `password` field
(schema default value of `password` is the empty string). -/
structure UserEntityState where
  name : String
  email : String
  avatarPath : String
  password : String
  userType : UserType
  deriving Repr, DecidableEq

/-- `UserEntity` constructor (part_000 lines 17-24): copies `name`, `email`,
`avatarPath`, `userType` from `data`; the `password` field is left at its
schema default, the empty string, and no field of `data` is written to it. -/
def userEntityInit (data : User) : UserEntityState :=
  { name := data.name
    email := data.email
    avatarPath := data.avatarPath
    password := ""
    userType := data.userType }

/-- `UserEntity.setPassword` (part_000 lines 38-40): stores
`createSHA256 password salt` in the private `password` field. -/
def setPassword (st : UserEntityState) (password salt : String) : UserEntityState :=
  { st with password := createSHA256 password salt }

/-- `UserEntity.getPassword` (part_000 lines 42-44). -/
def getPassword (st : UserEntityState) : String :=
  st.password

/-- The mutating operations `UserEntity` declares: only `setPassword`
(the constructor is the initial state, `getPassword` reads). -/
inductive UserOp
  | setPw (password salt : String)
  deriving Repr, DecidableEq

def applyUserOp (st : UserEntityState) : UserOp → UserEntityState
  | .setPw p s => setPassword st p s

/-- A `UserEntity` reached by the constructor followed by any sequence of its
mutating operations. -/
def runUserOps (data : User) (ops : List UserOp) : UserEntityState :=
  ops.foldl applyUserOp (userEntityInit data)

/-- Modelled from the spec: the User response DTO mapping (the response class
and `fillDTO` are not under the given sources).  "A declarative mapper
converts an internal entity into a plain response object containing only
public fields, discarding write-only fields (e.g., password hash) and
coercing identifiers to string form."  The plain object is an association
list from field name to string value. -/
def userToResponse (st : UserEntityState) (id : String) : List (String × String) :=
  [("id", id),
   ("email", st.email),
   ("name", st.name),
   ("avatarPath", st.avatarPath),
   ("userType", UserType.toStr st.userType)]

/-! ## Offer and Comment data model -/

/-- A persisted offer document (fields the controller touches). -/
structure OfferRecord where
  id : String
  title : String
  city : String
  isPremium : Bool
  isFavorite : Bool
  previewImage : Option String
  offerImages : List String
  userId : String
  deriving Repr, DecidableEq

/-- A persisted comment document: references its offer by `offerId`. -/
structure CommentRecord where
  id : String
  offerId : String
  text : String
  rating : Nat
  deriving Repr, DecidableEq

/-- The database state the services act on.  `nextId` feeds fresh identifier
generation on `create`. -/
structure DB where
  offers : List OfferRecord
  comments : List CommentRecord
  nextId : Nat
  deriving Repr, DecidableEq

/-- `CreateOfferDto`: the body of `POST /offers` (representative fields). -/
structure CreateOfferDto where
  title : String := ""
  city : String := ""
  isPremium : Bool := false
  deriving Repr, DecidableEq

/-- A patch passed to `updateById`: `UpdateOfferDto` bodies and the inline
`updateDto` objects of the upload handlers.  A `some` field is present in the
patch, `none` is absent. -/
structure OfferPatch where
  title : Option String := none
  city : Option String := none
  isPremium : Option Bool := none
  previewImage : Option (Option String) := none
  offerImages : Option (List String) := none
  deriving Repr, DecidableEq

def applyPatch (o : OfferRecord) (p : OfferPatch) : OfferRecord :=
  { o with
    title := p.title.getD o.title
    city := p.city.getD o.city
    isPremium := p.isPremium.getD o.isPremium
    previewImage := p.previewImage.getD o.previewImage
    offerImages := p.offerImages.getD o.offerImages }

/-! ## Fresh identifiers (valid 24-character hex ObjectIds) -/

/-- Hex digit characters: 0-9 then a-f. -/
def hexDigit (n : Nat) : Char :=
  if n < 10 then Char.ofNat (48 + n) else Char.ofNat (87 + n)

/-- Exactly `k` hex digits of `n`, most significant first. -/
def hexCharsAux : Nat → Nat → List Char
  | 0, _ => []
  | k + 1, n => hexCharsAux k (n / 16) ++ [hexDigit (n % 16)]

/-- Fresh document identifier: a 24-character hex string, as MongoDB
ObjectIds are. -/
def freshId (n : Nat) : String :=
  String.mk (hexCharsAux 24 n)

/-- A hexadecimal character: 0-9, a-f or A-F. -/
def isHexChar (c : Char) : Bool :=
  (48 ≤ c.toNat && c.toNat ≤ 57) ||
  (97 ≤ c.toNat && c.toNat ≤ 102) ||
  (65 ≤ c.toNat && c.toNat ≤ 70)

def validHexList (l : List Char) : Bool :=
  (l.length == 24) && l.all isHexChar

/-- Modelled from the spec: the object-id validation predicate of
`ValidateObjectIdMiddleware` ("rejects malformed identifiers"): a well-formed
MongoDB ObjectId is a 24-character hexadecimal string. -/
def isValidObjectId (s : String) : Bool :=
  validHexList s.data

/-! ## Services (modelled from the spec: implementations are not under src) -/

/-- Modelled from the spec: `OfferService.findById(id)` returns the entity or
an absent result. -/
def offerFindById (db : DB) (id : String) : Option OfferRecord :=
  db.offers.find? (fun o => o.id == id)

/-- Modelled from the spec: `OfferService.exists(id)`. -/
def offerExists (db : DB) (id : String) : Bool :=
  (offerFindById db id).isSome

/-- The record `OfferService.create` inserts: payload fields plus a fresh id;
`userId` is `{...body, userId: user.id}` in the later revision and absent in
the early one. -/
def newOfferOf (db : DB) (dto : CreateOfferDto) (u : Option String) : OfferRecord :=
  { id := freshId db.nextId
    title := dto.title
    city := dto.city
    isPremium := dto.isPremium
    isFavorite := false
    previewImage := none
    offerImages := []
    userId := u.getD "" }

/-- Modelled from the spec: `OfferService.create(payload)` persists a new
offer under a fresh id and returns the created document. -/
def offerCreate (db : DB) (dto : CreateOfferDto) (u : Option String) :
    OfferRecord × DB :=
  (newOfferOf db dto u,
   { offers := newOfferOf db dto u :: db.offers
     comments := db.comments
     nextId := db.nextId + 1 })

/-- Modelled from the spec: `OfferService.deleteById(id)` removes the offer
and returns it, or returns an absent result when no such offer exists. -/
def offerDeleteById (db : DB) (id : String) : Option OfferRecord × DB :=
  match db.offers.find? (fun o => o.id == id) with
  | none => (none, db)
  | some o => (some o, { db with offers := db.offers.filter (fun x => !(x.id == id)) })

/-- Modelled from the spec: `OfferService.updateById(id, patch)` applies the
patch when the offer exists and returns the updated document, else an absent
result. -/
def offerUpdateById (db : DB) (id : String) (p : OfferPatch) :
    Option OfferRecord × DB :=
  match db.offers.find? (fun o => o.id == id) with
  | none => (none, db)
  | some o =>
    (some (applyPatch o p),
     { db with offers := db.offers.map (fun x => if x.id == id then applyPatch x p else x) })

/-- Modelled from the spec: `OfferService.find(limit)` lists offers. -/
def offerFind (db : DB) : List OfferRecord :=
  db.offers

/-- Modelled from the spec: `OfferService.findPremium(city, limit)`. -/
def offerFindPremium (db : DB) (city : String) : List OfferRecord :=
  db.offers.filter (fun o => o.isPremium && (o.city == city))

/-- Modelled from the spec: `OfferService.findFavorite()`. -/
def offerFindFavorite (db : DB) : List OfferRecord :=
  db.offers.filter (fun o => o.isFavorite)

/-- Modelled from the spec: `CommentService.findByOfferId(offerId)` returns
all comments referencing that offer id. -/
def commentFindByOfferId (db : DB) (offerId : String) : List CommentRecord :=
  db.comments.filter (fun c => c.offerId == offerId)

/-- Modelled from the spec: `CommentService.deleteByOfferId(offerId)` removes
all comments referencing that offer id (the cascade of the offer delete). -/
def commentDeleteByOfferId (db : DB) (offerId : String) : DB :=
  { db with comments := db.comments.filter (fun c => !(c.offerId == offerId)) }

/-! ## Responses, errors and requests -/

/-- Modelled from the spec: the `OfferResponse` mapping of `fillDTO` — public
fields of the offer, identifier in string form (the response class is not
under the given sources).  `OffersResponse` of the later revision maps the
same public fields. -/
structure OfferResponse where
  id : String
  title : String
  city : String
  isPremium : Bool
  isFavorite : Bool
  previewImage : Option String
  offerImages : List String
  deriving Repr, DecidableEq

def offerToResponse (o : OfferRecord) : OfferResponse :=
  { id := o.id
    title := o.title
    city := o.city
    isPremium := o.isPremium
    isFavorite := o.isFavorite
    previewImage := o.previewImage
    offerImages := o.offerImages }

/-- Modelled from the spec: the `CommentResponse` mapping of `fillDTO`. -/
structure CommentResponse where
  id : String
  text : String
  rating : Nat
  deriving Repr, DecidableEq

def commentToResponse (c : CommentRecord) : CommentResponse :=
  { id := c.id, text := c.text, rating := c.rating }

/-- The typed HTTP error of `http-error.ts`: status code, message and
originating component ("errors are represented as a typed HTTP error with
(status code, message, originating component)"). -/
structure HttpError where
  status : Nat
  message : String
  component : String
  deriving Repr, DecidableEq

/-- The body a handler sends: offer / offer list / comment list / the upload
response DTOs. -/
inductive RespBody
  | offer (o : Option OfferResponse)
  | offers (l : List OfferResponse)
  | comments (l : List CommentResponse)
  | uploadImage (previewImage : Option String)
  | uploadImages (names : List String)
  deriving Repr, DecidableEq

/-- What a handler (or a short-circuiting middleware) produces: a sent
response with its status code, or a thrown `HttpError`. -/
inductive HandlerResult
  | ok (status : Nat) (body : RespBody)
  | thrown (e : HttpError)
  deriving Repr, DecidableEq

def HandlerResult.thrownStatus : HandlerResult → Option Nat
  | .ok _ _ => none
  | .thrown e => some e.status

/-- Trace of service operations a request invoked, in call order. -/
inductive SvcCall
  | offerFind (limit : Option String)
  | offerFindById (id : String)
  | offerCreateCall (userId : Option String)
  | offerDeleteById (id : String)
  | offerUpdateById (id : String)
  | offerExistsCall (id : String)
  | offerFindPremium (city : String) (limit : Option String)
  | offerFindFavoriteWithArg (limit : Option String)
  | offerFindFavorite
  | commentDeleteByOfferId (id : String)
  | commentFindByOfferId (id : String)
  deriving Repr, DecidableEq

/-- The outcome of running a handler (or a whole route pipeline): the new
database state, the service-call trace, and the HTTP result. -/
structure HandlerOut where
  db : DB
  trace : List SvcCall
  result : HandlerResult
  deriving Repr, DecidableEq

/-- An incoming request: route params, `limit` query, authentication state
(`req.user` is present exactly when authenticated), validity of the body
against its DTO schema, the parsed bodies, and the uploaded file names the
upload middlewares attach (`req.file` / `req.files`). -/
structure Req where
  params : List (String × String) := []
  queryLimit : Option String := none
  authenticated : Bool := false
  userId : String := ""
  bodyValid : Bool := true
  body : CreateOfferDto := {}
  patchBody : OfferPatch := {}
  file : Option String := none
  files : List String := []
  deriving Repr, DecidableEq

/-- `params.x`: route parameter lookup (a matched route always binds its
parameters, the default is never reached on dispatched requests). -/
def Req.param (req : Req) (name : String) : String :=
  (req.params.lookup name).getD ""

def Req.paramOpt (req : Req) (name : String) : Option String :=
  req.params.lookup name

/-! ## Controller handlers, early revision (offer.controller.ts lines 28-151) -/

/-- `OfferController.show`, early revision (lines 47-63): looks the offer up;
when absent, throws an `HttpError` with `StatusCodes.NOT_IMPLEMENTED` (501),
message `Not implemented` and component `OfferContorller` (spelling as in the
source); otherwise responds 200 with the mapped offer. -/
def showEarly (req : Req) (db : DB) : HandlerOut :=
  let offerId := req.param "offerId"
  match offerFindById db offerId with
  | none =>
    { db := db
      trace := [.offerFindById offerId]
      result := .thrown { status := 501, message := "Not implemented", component := "OfferContorller" } }
  | some o =>
    { db := db
      trace := [.offerFindById offerId]
      result := .ok 200 (.offer (some (offerToResponse o))) }

/-- `OfferController.index`, early revision (lines 65-71): note it reads
`params.limit`, not the query. -/
def indexEarly (req : Req) (db : DB) : HandlerOut :=
  { db := db
    trace := [.offerFind (req.paramOpt "limit")]
    result := .ok 200 (.offers ((offerFind db).map offerToResponse)) }

/-- `OfferController.create`, early revision (lines 73-80): creates from the
body alone, re-reads the created offer by id, responds 201. -/
def createEarly (req : Req) (db : DB) : HandlerOut :=
  let r := offerCreate db req.body none
  let offer := offerFindById r.2 r.1.id
  { db := r.2
    trace := [.offerCreateCall none, .offerFindById r.1.id]
    result := .ok 201 (.offer (offer.map offerToResponse)) }

/-- `OfferController.delete`, early revision (lines 82-99): deletes the
offer; when it was absent throws 404 (component `OfferContorller`); otherwise
cascades `commentService.deleteByOfferId` and responds 204. -/
def deleteEarly (req : Req) (db : DB) : HandlerOut :=
  let offerId := req.param "offerId"
  let r := offerDeleteById db offerId
  match r.1 with
  | none =>
    { db := r.2
      trace := [.offerDeleteById offerId]
      result := .thrown { status := 404
                          message := "Offer with id " ++ offerId ++ " not found."
                          component := "OfferContorller" } }
  | some o =>
    { db := commentDeleteByOfferId r.2 offerId
      trace := [.offerDeleteById offerId, .commentDeleteByOfferId offerId]
      result := .ok 204 (.offer (some (offerToResponse o))) }

/-- `OfferController.update`, early revision (lines 101-116). -/
def updateEarly (req : Req) (db : DB) : HandlerOut :=
  let offerId := req.param "offerId"
  let r := offerUpdateById db offerId req.patchBody
  match r.1 with
  | none =>
    { db := r.2
      trace := [.offerUpdateById offerId]
      result := .thrown { status := 404
                          message := "Offer with id " ++ offerId ++ " not found."
                          component := "OfferController" } }
  | some o =>
    { db := r.2
      trace := [.offerUpdateById offerId]
      result := .ok 200 (.offer (some (offerToResponse o))) }

/-- `OfferController.getComments`, early revision (lines 118-132): checks
existence in the handler itself, then lists comments. -/
def getCommentsEarly (req : Req) (db : DB) : HandlerOut :=
  let offerId := req.param "offerId"
  if offerExists db offerId then
    { db := db
      trace := [.offerExistsCall offerId, .commentFindByOfferId offerId]
      result := .ok 200 (.comments ((commentFindByOfferId db offerId).map commentToResponse)) }
  else
    { db := db
      trace := [.offerExistsCall offerId]
      result := .thrown { status := 404
                          message := "Offer with id " ++ offerId ++ " not found."
                          component := "OfferController" } }

/-- `OfferController.findPremium`, early revision (lines 134-141). -/
def findPremiumEarly (req : Req) (db : DB) : HandlerOut :=
  let city := req.param "city"
  { db := db
    trace := [.offerFindPremium city req.queryLimit]
    result := .ok 200 (.offers ((offerFindPremium db city).map offerToResponse)) }

/-- `OfferController.findFavorite`, early revision (lines 143-150): calls the
service WITH an argument, `params.limit` (which the `/favorite` route never
binds), and responds via `send(res, StatusCodes.OK, ...)`. -/
def findFavoriteEarly (req : Req) (db : DB) : HandlerOut :=
  { db := db
    trace := [.offerFindFavoriteWithArg (req.paramOpt "limit")]
    result := .ok 200 (.offers ((offerFindFavorite db).map offerToResponse)) }

/-! ## Controller handlers, later revision (offer.controller.ts lines 186-365) -/

/-- `OfferController.show`, later revision (lines 274-282): no absence check
in the handler (the route's middleware chain is expected to have done it);
responds 200 with the mapped lookup result. -/
def showLater (req : Req) (db : DB) : HandlerOut :=
  let offerId := req.param "offerId"
  { db := db
    trace := [.offerFindById offerId]
    result := .ok 200 (.offer ((offerFindById db offerId).map offerToResponse)) }

/-- `OfferController.index`, later revision (lines 284-290): reads
`query.limit`. -/
def indexLater (req : Req) (db : DB) : HandlerOut :=
  { db := db
    trace := [.offerFind req.queryLimit]
    result := .ok 200 (.offers ((offerFind db).map offerToResponse)) }

/-- `OfferController.create`, later revision (lines 292-300): creates from
`{...body, userId: user.id}`, re-reads the created offer by its id, responds
201 with the mapped re-read result. -/
def createLater (req : Req) (db : DB) : HandlerOut :=
  let r := offerCreate db req.body (some req.userId)
  let offer := offerFindById r.2 r.1.id
  { db := r.2
    trace := [.offerCreateCall (some req.userId), .offerFindById r.1.id]
    result := .ok 201 (.offer (offer.map offerToResponse)) }

/-- `OfferController.delete`, later revision (lines 302-311): deletes the
offer, then unconditionally cascades `commentService.deleteByOfferId`, then
responds 204 with the delete result. -/
def deleteLater (req : Req) (db : DB) : HandlerOut :=
  let offerId := req.param "offerId"
  let r := offerDeleteById db offerId
  { db := commentDeleteByOfferId r.2 offerId
    trace := [.offerDeleteById offerId, .commentDeleteByOfferId offerId]
    result := .ok 204 (.offer (r.1.map offerToResponse)) }

/-- `OfferController.update`, later revision (lines 313-320): no absence
check in the handler. -/
def updateLater (req : Req) (db : DB) : HandlerOut :=
  let offerId := req.param "offerId"
  let r := offerUpdateById db offerId req.patchBody
  { db := r.2
    trace := [.offerUpdateById offerId]
    result := .ok 200 (.offer (r.1.map offerToResponse)) }

/-- `OfferController.getComments`, later revision (lines 322-328). -/
def getCommentsLater (req : Req) (db : DB) : HandlerOut :=
  let offerId := req.param "offerId"
  { db := db
    trace := [.commentFindByOfferId offerId]
    result := .ok 200 (.comments ((commentFindByOfferId db offerId).map commentToResponse)) }

/-- `OfferController.findPremium`, later revision (lines 330-337). -/
def findPremiumLater (req : Req) (db : DB) : HandlerOut :=
  let city := req.param "city"
  { db := db
    trace := [.offerFindPremium city req.queryLimit]
    result := .ok 200 (.offers ((offerFindPremium db city).map offerToResponse)) }

/-- `OfferController.findFavorite`, later revision (lines 339-346): calls the
service with NO argument and responds via `send(res, StatusCodes.OK, ...)`. -/
def findFavoriteLater (_req : Req) (db : DB) : HandlerOut :=
  { db := db
    trace := [.offerFindFavorite]
    result := .ok 200 (.offers ((offerFindFavorite db).map offerToResponse)) }

/-- `OfferController.uploadImage` (lines 348-353): builds
`{ previewImage: req.file?.filename }` (the field value is absent when no
file was attached), calls `updateById` without inspecting its result, and
responds 201 with the upload DTO. -/
def uploadImageH (req : Req) (db : DB) : HandlerOut :=
  let offerId := req.param "offerId"
  let updateDto : OfferPatch := { previewImage := some req.file }
  let r := offerUpdateById db offerId updateDto
  { db := r.2
    trace := [.offerUpdateById offerId]
    result := .ok 201 (.uploadImage req.file) }

/-- `OfferController.uploadImages` (lines 355-364): collects the uploaded
file names, calls `updateById` without inspecting its result, responds 201. -/
def uploadImagesH (req : Req) (db : DB) : HandlerOut :=
  let offerId := req.param "offerId"
  let updateDto : OfferPatch := { offerImages := some req.files }
  let r := offerUpdateById db offerId updateDto
  { db := r.2
    trace := [.offerUpdateById offerId]
    result := .ok 201 (.uploadImages req.files) }

/-! ## Middlewares, routes and dispatch -/

/-- The middlewares a route of the offer controller attaches. -/
inductive Mw
  | privateRoute
  | validateObjectId (param : String)
  | validateDto (dtoName : String)
  | documentExists (entityName : String) (param : String)
  | uploadFile
  | uploadFiles
  deriving Repr, DecidableEq

/-- Modelled from the spec: middleware semantics (the middleware classes are
not under the given sources).  "Private-route gate: rejects unauthenticated
requests with 401 before handler execution.  Object-id validator: rejects
malformed identifiers with a client error before any database access.  DTO
validator: rejects payloads failing schema validation with a structured
400-class error.  Existence check: performs a lookup and rejects with 404 if
absent.  Upload middlewares: stream files to storage and attach filenames to
the request."  A middleware either passes (`none`) or short-circuits the
chain with a typed HTTP error (`some e`). -/
def runMw (db : DB) (req : Req) : Mw → Option HttpError
  | .privateRoute =>
    if req.authenticated then none
    else some { status := 401, message := "Unauthorized", component := "PrivateRouteMiddleware" }
  | .validateObjectId p =>
    if isValidObjectId (req.param p) then none
    else some { status := 400
                message := req.param p ++ " is invalid ObjectID"
                component := "ValidateObjectIdMiddleware" }
  | .validateDto dtoName =>
    if req.bodyValid then none
    else some { status := 400
                message := "Validation error: " ++ dtoName
                component := "ValidateDtoMiddleware" }
  | .documentExists entityName p =>
    if offerExists db (req.param p) then none
    else some { status := 404
                message := entityName ++ " with " ++ req.param p ++ " not found."
                component := "DocumentExistsMiddleware" }
  | .uploadFile => none
  | .uploadFiles => none

/-- Run a middleware chain in declared order; the first error short-circuits
("any middleware may terminate the chain early by producing an error
response; otherwise the chain is fully transparent"). -/
def runMws (db : DB) (req : Req) : List Mw → Option HttpError
  | [] => none
  | m :: ms =>
    match runMw db req m with
    | some e => some e
    | none => runMws db req ms

inductive HttpMethod
  | get
  | post
  | patch
  | deleteM
  deriving Repr, DecidableEq, BEq

/-- A path pattern segment: literal or `:param`. -/
inductive Seg
  | lit (s : String)
  | param (name : String)
  deriving Repr, DecidableEq

def segMatch : Seg → String → Bool
  | .lit l, s => l == s
  | .param _, _ => true

/-- Express-style matching: a pattern matches a concrete segment list of the
same length, `:param` segments matching any one segment. -/
def pathMatch : List Seg → List String → Bool
  | [], [] => true
  | p :: ps, s :: ss => segMatch p s && pathMatch ps ss
  | _, _ => false

/-- A registered route: pattern, method, handler, ordered middleware list. -/
structure Route (H : Type) where
  path : List Seg
  method : HttpMethod
  handler : H
  middlewares : List Mw := []
  deriving Repr, DecidableEq

/-- Router dispatch: the first route, in registration order, whose method and
path match. -/
def dispatch {H : Type} (routes : List (Route H)) (m : HttpMethod) (segs : List String) :
    Option (Route H) :=
  routes.find? (fun r => r.method == m && pathMatch r.path segs)

/-- Run a route: middleware chain first; on short-circuit the handler never
runs (empty trace, state unchanged); otherwise the handler runs. -/
def runPipeline {H : Type} (apply : H → Req → DB → HandlerOut)
    (r : Route H) (req : Req) (db : DB) : HandlerOut :=
  match runMws db req r.middlewares with
  | some e => { db := db, trace := [], result := .thrown e }
  | none => apply r.handler req db

/-- Handlers of the early revision of the controller. -/
inductive EarlyHandler
  | showOffer
  | index
  | create
  | deleteOffer
  | update
  | getComments
  | findPremium
  | findFavorite
  deriving Repr, DecidableEq

def applyEarly : EarlyHandler → Req → DB → HandlerOut
  | .showOffer => showEarly
  | .index => indexEarly
  | .create => createEarly
  | .deleteOffer => deleteEarly
  | .update => updateEarly
  | .getComments => getCommentsEarly
  | .findPremium => findPremiumEarly
  | .findFavorite => findFavoriteEarly

/-- Handlers of the later revision of the controller. -/
inductive LaterHandler
  | showOffer
  | index
  | create
  | deleteOffer
  | update
  | getComments
  | findPremium
  | findFavorite
  | uploadImage
  | uploadImages
  deriving Repr, DecidableEq

def applyLater : LaterHandler → Req → DB → HandlerOut
  | .showOffer => showLater
  | .index => indexLater
  | .create => createLater
  | .deleteOffer => deleteLater
  | .update => updateLater
  | .getComments => getCommentsLater
  | .findPremium => findPremiumLater
  | .findFavorite => findFavoriteLater
  | .uploadImage => uploadImageH
  | .uploadImages => uploadImagesH

def runEarly (r : Route EarlyHandler) : Req → DB → HandlerOut :=
  runPipeline applyEarly r

def runLater (r : Route LaterHandler) : Req → DB → HandlerOut :=
  runPipeline applyLater r

/-- Early revision route table, in registration order (lines 37-44): note
`/:offerId` is registered before `/favorite`, and no route carries
middleware. -/
def earlyRoutes : List (Route EarlyHandler) :=
  [ { path := [.param "offerId"], method := .get, handler := .showOffer },
    { path := [], method := .get, handler := .index },
    { path := [], method := .post, handler := .create },
    { path := [.param "offerId"], method := .deleteM, handler := .deleteOffer },
    { path := [.param "offerId"], method := .patch, handler := .update },
    { path := [.param "offerId", .lit "comments"], method := .get, handler := .getComments },
    { path := [.lit "premium", .param "city"], method := .get, handler := .findPremium },
    { path := [.lit "favorite"], method := .get, handler := .findFavorite } ]

/-- Later revision: `POST /` (lines 198-206). -/
def createRouteL : Route LaterHandler :=
  { path := []
    method := .post
    handler := .create
    middlewares := [.privateRoute, .validateDto "CreateOfferDto"] }

/-- Later revision: `GET /favorite` (line 207), registered before
`/:offerId`. -/
def favoriteRouteL : Route LaterHandler :=
  { path := [.lit "favorite"], method := .get, handler := .findFavorite }

/-- Later revision: `GET /:offerId` (lines 208-216). -/
def showRouteL : Route LaterHandler :=
  { path := [.param "offerId"]
    method := .get
    handler := .showOffer
    middlewares := [.validateObjectId "offerId", .documentExists "Offer" "offerId"] }

/-- Later revision: `DELETE /:offerId` (lines 217-226). -/
def deleteRouteL : Route LaterHandler :=
  { path := [.param "offerId"]
    method := .deleteM
    handler := .deleteOffer
    middlewares := [.privateRoute, .validateObjectId "offerId", .documentExists "Offer" "offerId"] }

/-- Later revision: `PATCH /:offerId` (lines 227-237). -/
def updateRouteL : Route LaterHandler :=
  { path := [.param "offerId"]
    method := .patch
    handler := .update
    middlewares := [.privateRoute, .validateObjectId "offerId",
                    .validateDto "UpdateOfferDto", .documentExists "Offer" "offerId"] }

/-- Later revision: `GET /:offerId/comments` (lines 238-246). -/
def commentsRouteL : Route LaterHandler :=
  { path := [.param "offerId", .lit "comments"]
    method := .get
    handler := .getComments
    middlewares := [.validateObjectId "offerId", .documentExists "Offer" "offerId"] }

/-- Later revision: `POST /:offerId/previewImage` (lines 247-256): its
middleware list holds NO existence check. -/
def previewImageRouteL : Route LaterHandler :=
  { path := [.param "offerId", .lit "previewImage"]
    method := .post
    handler := .uploadImage
    middlewares := [.privateRoute, .validateObjectId "offerId", .uploadFile] }

/-- Later revision: `POST /:offerId/offerImages` (lines 257-266): its
middleware list holds NO existence check. -/
def offerImagesRouteL : Route LaterHandler :=
  { path := [.param "offerId", .lit "offerImages"]
    method := .post
    handler := .uploadImages
    middlewares := [.privateRoute, .validateObjectId "offerId", .uploadFiles] }

/-- Later revision: `GET /` (line 197). -/
def indexRouteL : Route LaterHandler :=
  { path := [], method := .get, handler := .index }

/-- Later revision: `GET /premium/:city` (lines 267-271). -/
def premiumRouteL : Route LaterHandler :=
  { path := [.lit "premium", .param "city"], method := .get, handler := .findPremium }

/-- Later revision route table, in registration order (lines 197-271). -/
def laterRoutes : List (Route LaterHandler) :=
  [ indexRouteL, createRouteL, favoriteRouteL, showRouteL, deleteRouteL,
    updateRouteL, commentsRouteL, previewImageRouteL, offerImagesRouteL,
    premiumRouteL ]

/-! ## Client thunks (part_001) -/

/-- The offer DTO a client request receives (representative fields). -/
structure OfferDto where
  id : String := ""
  title : String := ""
  deriving Repr, DecidableEq

/-- The adapted offer the store consumes. -/
structure ClientOffer where
  id : String
  title : String
  deriving Repr, DecidableEq

/-- Modelled from the spec: `adaptOfferToClient` of the client adapters
(not under the given sources) adapts the response payload for the frontend
store. -/
def adaptOfferToClient (d : OfferDto) : ClientOffer :=
  { id := d.id, title := d.title }

/-- Client route table entries (`AppRoute` of const.ts, not under the given
sources; members per the navigation calls in part_001). -/
inductive AppRoute
  | root
  | login
  | property
  | notFound
  deriving Repr, DecidableEq

/-- `HttpCode.NotFound` of const.ts. -/
def httpCodeNotFound : Nat := 404

/-- Outcome of an awaited axios call: resolved data, or a thrown
`AxiosError` whose `response?.status` is `some s` (HTTP error) or `none`
(no response). -/
inductive AxiosOutcome
  | ok (data : OfferDto)
  | err (status : Option Nat)
  deriving Repr, DecidableEq

/-- What a thunk run produces: the promise outcome — fulfilled with the
adapted offer or rejected with the original error (identified by its
status) — and the `history.push` navigations it performed. -/
structure ThunkOut where
  result : Except (Option Nat) ClientOffer
  pushes : List AppRoute
  deriving Repr

/-- `fetchOffer` (part_001 lines 67-85): on success, resolves with
`adaptOfferToClient(data)`; on error, pushes the NotFound route exactly when
`response?.status === HttpCode.NotFound`, and always rejects with the
original error. -/
def fetchOffer (resp : AxiosOutcome) : ThunkOut :=
  match resp with
  | .ok data => { result := .ok (adaptOfferToClient data), pushes := [] }
  | .err s =>
    { result := .error s
      pushes := if s == some httpCodeNotFound then [AppRoute.notFound] else [] }

/-! ## Concrete fixtures -/

/-- An empty database. -/
def db0 : DB := { offers := [], comments := [], nextId := 0 }

/-- A well-formed 24-character hex ObjectId that is bound to no offer in
`db0`. -/
def validId : String := "aaaaaaaaaaaaaaaaaaaaaaaa"

/-- A request for `GET /offers/x`. -/
def reqShowX : Req := { params := [("offerId", "x")] }

/-- An unauthenticated request (no `req.user`). -/
def reqUnauth : Req := {}

/-- An authenticated upload request for `/:offerId/previewImage` with a
well-formed offer id and no attached file. -/
def reqUpload : Req := { params := [("offerId", validId)], authenticated := true }

/-- The request a client `GET /offers/:id` produces: the id as its only
route parameter. -/
def mkShowReq (id : String) : Req := { params := [("offerId", id)] }

/-- The 404 error `DocumentExistsMiddleware` raises for a missing offer. -/
def notFoundErr (id : String) : HttpError :=
  { status := 404
    message := "Offer" ++ " with " ++ id ++ " not found."
    component := "DocumentExistsMiddleware" }

/-! ## Helper lemmas -/

theorem hexDigit_hex : ∀ m < 16, isHexChar (hexDigit m) = true := by decide

theorem hexCharsAux_length (k : Nat) : ∀ n, (hexCharsAux k n).length = k := by
  induction k with
  | zero => intro n; rfl
  | succ k ih => intro n; simp [hexCharsAux, ih]

theorem hexCharsAux_hex (k : Nat) : ∀ n c, c ∈ hexCharsAux k n → isHexChar c = true := by
  induction k with
  | zero =>
    intro n c h
    simp [hexCharsAux] at h
  | succ k ih =>
    intro n c h
    simp only [hexCharsAux, List.mem_append, List.mem_singleton] at h
    rcases h with h | h
    · exact ih _ _ h
    · subst h
      exact hexDigit_hex _ (Nat.mod_lt _ (by decide))

/-- Every generated fresh id is a well-formed ObjectId. -/
theorem freshId_valid (n : Nat) : isValidObjectId (freshId n) = true := by
  have hl := hexCharsAux_length 24 n
  show validHexList (hexCharsAux 24 n) = true
  simp [validHexList, hl, List.all_eq_true]
  intro c hc
  exact hexCharsAux_hex 24 n c hc

/-- Filtering for an offer id after filtering it away yields nothing. -/
theorem filter_offerId_cascade (id : String) (l : List CommentRecord) :
    (l.filter (fun c => !(c.offerId == id))).filter (fun c => c.offerId == id) = [] := by
  induction l with
  | nil => rfl
  | cons c t ih =>
    by_cases h : c.offerId = id
    · simp [List.filter_cons, h, ih]
    · have hb : (c.offerId == id) = false := by simpa using h
      simp [List.filter_cons, hb, ih]

/-- After the cascade delete, `findByOfferId` returns the empty list. -/
theorem commentFind_after_delete (db : DB) (id : String) :
    commentFindByOfferId (commentDeleteByOfferId db id) id = [] :=
  filter_offerId_cascade id db.comments

@[simp]
theorem offerToResponse_id (o : OfferRecord) : (offerToResponse o).id = o.id :=
  rfl

/-- Re-reading the freshly created offer by its id succeeds. -/
theorem findById_after_create (db : DB) (dto : CreateOfferDto) (u : Option String) :
    offerFindById (offerCreate db dto u).2 (newOfferOf db dto u).id =
      some (newOfferOf db dto u) := by
  simp [offerFindById, offerCreate, List.find?]

/-! ## Claim theorems -/

/-- C6: for every valid User entity, the response object produced by the User
response mapping contains only the public fields `id`, `email`, `name`,
`avatarPath`, `userType`, and never includes the password hash field. -/
theorem c6_user_response_excludes_password (st : UserEntityState) (id : String) :
    (userToResponse st id).lookup "password" = none ∧
    (userToResponse st id).map Prod.fst = ["id", "email", "name", "avatarPath", "userType"] :=
  ⟨rfl, rfl⟩

/-- C7: for every UserEntity reached from the constructor by its operations,
the stored password field holds either its schema default (the empty string,
no password set yet) or the salted hash `createSHA256 password salt` of some
`setPassword` call; moreover `setPassword` always stores exactly
`createSHA256 password salt`, and the constructor copies no input into the
password field — the plaintext password is never assigned to the persisted
field by any UserEntity operation. -/
theorem c7_password_only_salted_hash (data : User) (ops : List UserOp) :
    ((runUserOps data ops).password = "" ∨
      ∃ p s, (runUserOps data ops).password = createSHA256 p s) ∧
    (∀ st p s, (setPassword st p s).password = createSHA256 p s) ∧
    (∀ d : User, (userEntityInit d).password = "") := by
  refine ⟨?_, fun st p s => rfl, fun d => rfl⟩
  have inv : ∀ (l : List UserOp) (st : UserEntityState),
      (st.password = "" ∨ ∃ p s, st.password = createSHA256 p s) →
      ((l.foldl applyUserOp st).password = "" ∨
        ∃ p s, (l.foldl applyUserOp st).password = createSHA256 p s) := by
    intro l
    induction l with
    | nil => intro st h; exact h
    | cons op t ih =>
      intro st _h
      cases op with
      | setPw p s => exact ih _ (Or.inr ⟨p, s, rfl⟩)
  exact inv ops _ (Or.inl rfl)

/-- C10: the `fetchOffer` thunk resolves with the adapted offer on success;
on a 404 response it pushes the NotFound route and still rejects with the
original error; on any other error it rejects without navigating. -/
theorem c10_fetch_offer_flow :
    (∀ d : OfferDto,
      fetchOffer (.ok d) = { result := .ok (adaptOfferToClient d), pushes := [] }) ∧
    (fetchOffer (.err (some httpCodeNotFound)) =
      { result := .error (some httpCodeNotFound), pushes := [AppRoute.notFound] }) ∧
    (∀ s : Option Nat, s ≠ some httpCodeNotFound →
      fetchOffer (.err s) = { result := .error s, pushes := [] }) := by
  refine ⟨fun d => rfl, rfl, fun s h => ?_⟩
  have hb : (s == some httpCodeNotFound) = false := by
    simpa using h
  simp [fetchOffer, hb]

/-- C10 witness: a concrete non-404 error (status 500) rejects without
navigating. -/
theorem c10_fetch_offer_flow_witness :
    (some 500 : Option Nat) ≠ some httpCodeNotFound ∧
    fetchOffer (.err (some 500)) = { result := .error (some 500), pushes := [] } :=
  ⟨by decide, c10_fetch_offer_flow.2.2 (some 500) (by decide)⟩

/-- C5 counterexample: on the empty database, `GET /offers/x` finds no offer
and the early-revision show handler throws status 501 (`Not implemented`),
not the 404 the claim states. -/
theorem c5_show_absent_cex :
    offerFindById db0 "x" = none ∧
    (showEarly reqShowX db0).result =
      .thrown { status := 501, message := "Not implemented", component := "OfferContorller" } ∧
    (showEarly reqShowX db0).result.thrownStatus ≠ some 404 := by
  refine ⟨rfl, rfl, by decide⟩

/-- C5 amended: for every offer id for which `offerService.findById` returns
an absent result, the early-revision show handler signals a typed HTTP
error — but with status 501 (NOT_IMPLEMENTED), message `Not implemented` and
component `OfferContorller`, not a 404 not-found error. -/
theorem c5_show_absent_throws_not_implemented (req : Req) (db : DB)
    (h : offerFindById db (req.param "offerId") = none) :
    showEarly req db =
      { db := db
        trace := [SvcCall.offerFindById (req.param "offerId")]
        result := .thrown { status := 501
                            message := "Not implemented"
                            component := "OfferContorller" } } := by
  simp [showEarly, h]

/-- C5 witness: the amended statement at the concrete input of the
counterexample. -/
theorem c5_show_absent_witness :
    offerFindById db0 (reqShowX.param "offerId") = none ∧
    showEarly reqShowX db0 =
      { db := db0
        trace := [SvcCall.offerFindById (reqShowX.param "offerId")]
        result := .thrown { status := 501
                            message := "Not implemented"
                            component := "OfferContorller" } } :=
  ⟨by decide, c5_show_absent_throws_not_implemented reqShowX db0 (by decide)⟩

/-- C8 counterexample: in the early revision, the `/:offerId` route is
registered before `/favorite`, so `GET /offers/favorite` is dispatched to the
show handler, not to findFavorite. -/
theorem c8_favorite_early_dispatch_cex :
    (dispatch earlyRoutes HttpMethod.get ["favorite"]).map (fun r => r.handler) =
      some EarlyHandler.showOffer ∧
    (dispatch earlyRoutes HttpMethod.get ["favorite"]).map (fun r => r.handler) ≠
      some EarlyHandler.findFavorite := by
  exact ⟨by decide, by decide⟩

/-- C8 amended: in the later revision, every `GET /offers/favorite` request
is dispatched to the findFavorite handler, which invokes the service
operation findFavorite with no limit argument and responds 200 with the
mapped offers array (in the early revision the earlier-registered
`/:offerId` route captures the request instead). -/
theorem c8_favorite_later_dispatch (req : Req) (db : DB) :
    (dispatch laterRoutes HttpMethod.get ["favorite"]).map (fun r => r.handler) =
      some LaterHandler.findFavorite ∧
    runLater favoriteRouteL req db =
      { db := db
        trace := [SvcCall.offerFindFavorite]
        result := .ok 200 (.offers ((offerFindFavorite db).map offerToResponse)) } := by
  exact ⟨by decide, rfl⟩

/-- C1: handling `DELETE /offers/:offerId` invokes the comment service
`deleteByOfferId` for the same id after deleting the offer, so after a
successful delete `findByOfferId` returns the empty list — a comment never
outlives its offer.  In the later revision this holds unconditionally; in the
early revision either the handler throws (offer absent, nothing deleted) or
the same cascade holds. -/
theorem c1_delete_cascades_comments (req : Req) (db : DB) :
    ((deleteLater req db).trace =
      [SvcCall.offerDeleteById (req.param "offerId"),
       SvcCall.commentDeleteByOfferId (req.param "offerId")] ∧
     commentFindByOfferId (deleteLater req db).db (req.param "offerId") = []) ∧
    ((∃ e, (deleteEarly req db).result = .thrown e) ∨
     ((deleteEarly req db).trace =
        [SvcCall.offerDeleteById (req.param "offerId"),
         SvcCall.commentDeleteByOfferId (req.param "offerId")] ∧
      commentFindByOfferId (deleteEarly req db).db (req.param "offerId") = [])) := by
  constructor
  · exact ⟨rfl, commentFind_after_delete _ _⟩
  · cases hr : (offerDeleteById db (req.param "offerId")).1 with
    | none =>
      left
      refine ⟨{ status := 404
                message := "Offer with id " ++ req.param "offerId" ++ " not found."
                component := "OfferContorller" }, ?_⟩
      simp [deleteEarly, hr]
    | some o =>
      right
      constructor
      · simp [deleteEarly, hr]
      · simp [deleteEarly, hr, commentFind_after_delete]

/-- C3: for every unauthenticated `POST /offers` request, the private-route
middleware terminates the chain with status 401 before the create handler
runs: the service-call trace is empty (so `offerService.create` is never
invoked) and the database state is unchanged. -/
theorem c3_unauthenticated_create_rejected (req : Req) (db : DB)
    (h : req.authenticated = false) :
    runLater createRouteL req db =
      { db := db
        trace := []
        result := .thrown { status := 401
                            message := "Unauthorized"
                            component := "PrivateRouteMiddleware" } } := by
  simp [runLater, runPipeline, runMws, runMw, createRouteL, h]

/-- C3 witness: a concrete unauthenticated request against the empty
database. -/
theorem c3_unauthenticated_create_witness :
    reqUnauth.authenticated = false ∧
    runLater createRouteL reqUnauth db0 =
      { db := db0
        trace := []
        result := .thrown { status := 401
                            message := "Unauthorized"
                            component := "PrivateRouteMiddleware" } } :=
  ⟨rfl, c3_unauthenticated_create_rejected reqUnauth db0 rfl⟩

/-- C9: for every authenticated `POST /offers/:offerId/previewImage` request
with a well-formed offerId, the route pipeline reaches the uploadImage
handler and responds 201 unconditionally — for EVERY database state, so also
when no offer with that id exists — with the patch built from `req.file`
(which may be absent) passed to `updateById` whose result is never
inspected. -/
theorem c9_upload_image_201_unconditional (req : Req) (db : DB)
    (hauth : req.authenticated = true)
    (hid : isValidObjectId (req.param "offerId") = true) :
    runLater previewImageRouteL req db =
      { db := (offerUpdateById db (req.param "offerId") { previewImage := some req.file }).2
        trace := [SvcCall.offerUpdateById (req.param "offerId")]
        result := .ok 201 (.uploadImage req.file) } := by
  simp [runLater, runPipeline, runMws, runMw, previewImageRouteL, applyLater,
    uploadImageH, hauth, hid]

/-- C9 witness: a concrete authenticated upload with a valid id bound to no
offer, and no attached file: still 201. -/
theorem c9_upload_image_witness :
    reqUpload.authenticated = true ∧
    isValidObjectId (reqUpload.param "offerId") = true ∧
    offerFindById db0 (reqUpload.param "offerId") = none ∧
    reqUpload.file = none ∧
    runLater previewImageRouteL reqUpload db0 =
      { db := (offerUpdateById db0 (reqUpload.param "offerId")
                { previewImage := some reqUpload.file }).2
        trace := [SvcCall.offerUpdateById (reqUpload.param "offerId")]
        result := .ok 201 (.uploadImage reqUpload.file) } :=
  ⟨rfl, by decide, by decide, rfl,
   c9_upload_image_201_unconditional reqUpload db0 rfl (by decide)⟩

/-- C2 counterexample: in the later revision, the previewImage route carries
no existence-check middleware: on the empty database, an authenticated
request with a well-formed offerId bound to no offer reaches the uploadImage
handler (the trace shows its `updateById` call) and gets a 201 — a handler
body ran for a nonexistent offer id. -/
theorem c2_upload_route_no_existence_check_cex :
    offerExists db0 (reqUpload.param "offerId") = false ∧
    (runLater previewImageRouteL reqUpload db0).result = .ok 201 (.uploadImage none) ∧
    (runLater previewImageRouteL reqUpload db0).trace =
      [SvcCall.offerUpdateById validId] := by
  exact ⟨by decide, by decide, by decide⟩

/-- C2 amended: in the later revision, the routes that attach
`DocumentExistsMiddleware` — show, delete, update, getComments — reject a
well-formed offerId bound to no offer with a thrown 404 before their handler
runs (empty trace, state unchanged); the previewImage and offerImages routes
attach no existence check, so their handlers can run for a nonexistent offer
id. -/
theorem c2_document_exists_routes_reject_missing (req : Req) (db : DB)
    (hid : isValidObjectId (req.param "offerId") = true)
    (hex : offerExists db (req.param "offerId") = false) :
    (runLater showRouteL req db =
      { db := db, trace := [], result := .thrown (notFoundErr (req.param "offerId")) }) ∧
    (runLater commentsRouteL req db =
      { db := db, trace := [], result := .thrown (notFoundErr (req.param "offerId")) }) ∧
    (req.authenticated = true →
      runLater deleteRouteL req db =
        { db := db, trace := [], result := .thrown (notFoundErr (req.param "offerId")) }) ∧
    (req.authenticated = true → req.bodyValid = true →
      runLater updateRouteL req db =
        { db := db, trace := [], result := .thrown (notFoundErr (req.param "offerId")) }) := by
  refine ⟨?_, ?_, fun ha => ?_, fun ha hb => ?_⟩
  · simp [runLater, runPipeline, runMws, runMw, showRouteL, hid, hex, notFoundErr]
  · simp [runLater, runPipeline, runMws, runMw, commentsRouteL, hid, hex, notFoundErr]
  · simp [runLater, runPipeline, runMws, runMw, deleteRouteL, hid, hex, ha, notFoundErr]
  · simp [runLater, runPipeline, runMws, runMw, updateRouteL, hid, hex, ha, hb, notFoundErr]

/-- C2 witness: the amended statement at a concrete valid id bound to no
offer in the empty database. -/
theorem c2_document_exists_witness :
    isValidObjectId (reqUpload.param "offerId") = true ∧
    offerExists db0 (reqUpload.param "offerId") = false ∧
    runLater showRouteL reqUpload db0 =
      { db := db0, trace := []
        result := .thrown (notFoundErr (reqUpload.param "offerId")) } :=
  ⟨by decide, by decide,
   (c2_document_exists_routes_reject_missing reqUpload db0 (by decide) (by decide)).1⟩

/-- C4: for every request with a valid CreateOfferDto body, the later
create handler responds 201 with the DTO mapping of
`offerService.findById` applied to the freshly created offer id, and a
subsequent `GET /offers/:id` through the full show route (middleware
included) at the returned id answers 200 with the very same response body —
the create-then-findById round trip. -/
theorem c4_create_show_roundtrip (req : Req) (db : DB) :
    ∃ resp : OfferResponse,
      (createLater req db).result = .ok 201 (.offer (some resp)) ∧
      (createLater req db).trace =
        [SvcCall.offerCreateCall (some req.userId), SvcCall.offerFindById resp.id] ∧
      runLater showRouteL (mkShowReq resp.id) (createLater req db).db =
        { db := (createLater req db).db
          trace := [SvcCall.offerFindById resp.id]
          result := .ok 200 (.offer (some resp)) } := by
  refine ⟨offerToResponse (newOfferOf db req.body (some req.userId)), ?_, rfl, ?_⟩
  · show HandlerResult.ok 201
        (.offer ((offerFindById (offerCreate db req.body (some req.userId)).2
          (newOfferOf db req.body (some req.userId)).id).map offerToResponse)) = _
    rw [findById_after_create]
    rfl
  · have hfind := findById_after_create db req.body (some req.userId)
    have hvalid : isValidObjectId (newOfferOf db req.body (some req.userId)).id = true :=
      freshId_valid db.nextId
    have hex : offerExists (offerCreate db req.body (some req.userId)).2
        (newOfferOf db req.body (some req.userId)).id = true := by
      simp [offerExists, hfind]
    simp [runLater, runPipeline, runMws, runMw, showRouteL, applyLater, showLater,
      createLater, mkShowReq, Req.param, hvalid, hex, hfind]

end SixCities
